import Mathlib

/-!
# Regional income prediction — verification of the prediction ensemble

Shallow embedding of the decision logic of the repository:

* `calculateTraditionalPrediction` — the deterministic statistical estimator
  (`web/functions/api/predict-traditional.ts`).
* `calculateHybridPrediction` — the adaptive weighted ensemble combining the
  statistical and the ML result (hybrid API source, `calculateHybridPrediction`).
* `calculateAgreement`, `generateRecommendation`, `comparisonStats` — the
  comparison engine (`web/functions/api/visualize.ts`, comparison API part).

Numbers are embedded as exact rationals (`ℚ`); currency results are integers
produced by JavaScript `Math.round`, embedded as `jsRound`.  Human-readable
explanation strings, timing fields and HTTP plumbing are outside the claims
and are not modelled.  Module-level constant tables are passed as explicit
read-only parameters where a claim quantifies over store contents.
-/

/-- JavaScript `Math.round`: round half toward positive infinity. -/
def jsRound (x : ℚ) : ℤ := ⌊x + 1/2⌋

/-! ## Statistical (traditional) estimator — `predict-traditional.ts` -/

/-- One row of `STATE_DATA`: state-level economic indicators. -/
structure StateEconData where
  medianIncome : ℚ
  costOfLivingIndex : ℚ
  unemploymentRate : ℚ
  educationIndex : ℚ
  youngProfessionalShare : ℚ
  gdpGrowthRate : ℚ
deriving DecidableEq

/-- One row of `ZIP_ADJUSTMENTS`: region-level adjustment data. -/
structure ZipAdjustment where
  state : String
  adjustmentFactor : ℚ
  population : ℕ
  ranking : String
deriving DecidableEq

/-- The `STATE_DATA` table of `predict-traditional.ts`. -/
def STATE_DATA : String → Option StateEconData := fun s =>
  if s = "NY" then some ⟨72000, 145/100, 42/1000, 78/100, 65/100, 28/1000⟩
  else if s = "CA" then some ⟨78000, 152/100, 48/1000, 72/100, 68/100, 32/1000⟩
  else if s = "IL" then some ⟨68000, 112/100, 45/1000, 68/100, 58/100, 24/1000⟩
  else if s = "TX" then some ⟨64000, 95/100, 40/1000, 62/100, 60/100, 35/1000⟩
  else if s = "FL" then some ⟨59000, 102/100, 38/1000, 58/100, 52/100, 30/1000⟩
  else none

/-- The `ZIP_ADJUSTMENTS` table of `predict-traditional.ts`. -/
def ZIP_ADJUSTMENTS : String → Option ZipAdjustment := fun z =>
  if z = "10001" then some ⟨"NY", 135/100, 25000, "high"⟩
  else if z = "90001" then some ⟨"CA", 68/100, 58000, "low"⟩
  else if z = "60601" then some ⟨"IL", 122/100, 20000, "high"⟩
  else if z = "77001" then some ⟨"TX", 108/100, 15000, "medium"⟩
  else if z = "33109" then some ⟨"FL", 182/100, 12000, "high"⟩
  else if z = "94027" then some ⟨"CA", 225/100, 28000, "high"⟩
  else none

/-- The `components` breakdown of a traditional prediction. -/
structure TraditionalComponents where
  baseIncome : ℤ
  costOfLivingIndex : ℚ
  educationAdjustment : ℚ
  unemploymentAdjustment : ℚ
  ageDistributionFactor : ℚ
  regionalEconomicIndex : ℚ
deriving DecidableEq

/-- Result of the traditional estimator (explanation strings not modelled). -/
structure TraditionalPrediction where
  zipCode : String
  state : String
  predictedIncome : ℤ
  confidence : ℚ
  components : TraditionalComponents
deriving DecidableEq

/-- Body of `calculateTraditionalPrediction` after both lookups succeeded. -/
def computePrediction (zipCode : String) (zipData : ZipAdjustment)
    (stateData : StateEconData) : TraditionalPrediction :=
  let baseIncome := stateData.medianIncome * zipData.adjustmentFactor
  let costOfLivingIndex :=
    if stateData.costOfLivingIndex > 13/10
    then 1 + ((stateData.costOfLivingIndex - 1) * (65/100))
    else stateData.costOfLivingIndex
  let educationAdjustment := 1 + (stateData.educationIndex * (15/100))
  let unemploymentAdjustment := 1 - (stateData.unemploymentRate * 3)
  let ageDistributionFactor := 1 + (stateData.youngProfessionalShare * (10/100))
  let regionalEconomicIndex := 1 + (stateData.gdpGrowthRate * (5/10))
  let predictedIncome := jsRound
    (baseIncome * costOfLivingIndex * educationAdjustment * unemploymentAdjustment
      * ageDistributionFactor * regionalEconomicIndex)
  let confidence0 : ℚ := 87/100
  let confidence1 :=
    if zipData.ranking = "high" ∨ zipData.ranking = "medium"
    then confidence0 + 3/100 else confidence0
  let confidence2 :=
    if stateData.educationIndex > 7/10 then confidence1 + 2/100 else confidence1
  let confidence3 :=
    if stateData.unemploymentRate < 45/1000 then confidence2 + 2/100 else confidence2
  let confidence := min confidence3 (95/100)
  { zipCode := zipCode
    state := zipData.state
    predictedIncome := predictedIncome
    confidence := confidence
    components :=
      { baseIncome := jsRound baseIncome
        costOfLivingIndex := costOfLivingIndex
        educationAdjustment := educationAdjustment
        unemploymentAdjustment := unemploymentAdjustment
        ageDistributionFactor := ageDistributionFactor
        regionalEconomicIndex := regionalEconomicIndex } }

/-- Embedding of `calculateTraditionalPrediction` from `predict-traditional.ts` (the two
`throw`s on failed lookups become `none`).  The two constant tables are
passed as read-only parameters. -/
def calculateTraditionalPrediction (zipAdjustments : String → Option ZipAdjustment)
    (stateDataTable : String → Option StateEconData) (zipCode : String) :
    Option TraditionalPrediction :=
  match zipAdjustments zipCode with
  | none => none
  | some zipData =>
    match stateDataTable zipData.state with
    | none => none
    | some stateData => some (computePrediction zipCode zipData stateData)

/-- The RegionIndicators view (as in the specification) of one region of the
reference store. -/
structure RegionIndicators where
  regionId : String
  jurisdiction : String
  jurisdictionMedianIncome : ℚ
  costOfLivingIndex : ℚ
  unemploymentRate : ℚ
  educationIndex : ℚ
  youngDemographicShare : ℚ
  growthRate : ℚ
  regionAdjustmentFactor : ℚ
deriving DecidableEq

/-- Reference-store lookup assembling the RegionIndicators of a region. -/
def regionIndicators (zipAdjustments : String → Option ZipAdjustment)
    (stateDataTable : String → Option StateEconData) (zipCode : String) :
    Option RegionIndicators :=
  match zipAdjustments zipCode with
  | none => none
  | some zipData =>
    match stateDataTable zipData.state with
    | none => none
    | some stateData => some
      { regionId := zipCode
        jurisdiction := zipData.state
        jurisdictionMedianIncome := stateData.medianIncome
        costOfLivingIndex := stateData.costOfLivingIndex
        unemploymentRate := stateData.unemploymentRate
        educationIndex := stateData.educationIndex
        youngDemographicShare := stateData.youngProfessionalShare
        growthRate := stateData.gdpGrowthRate
        regionAdjustmentFactor := zipData.adjustmentFactor }

/-- Predicted income exactly as the specification words it: `round(baseIncome ×
colFactor × educationFactor × unemploymentFactor × demographicFactor ×
growthFactor)` with the factor definitions of the spec. -/
def spec_statisticalIncome (ind : RegionIndicators) : ℤ :=
  let baseIncome := ind.jurisdictionMedianIncome * ind.regionAdjustmentFactor
  let colFactor :=
    if ind.costOfLivingIndex > 13/10
    then 1 + (ind.costOfLivingIndex - 1) * (65/100)
    else ind.costOfLivingIndex
  let educationFactor := 1 + ind.educationIndex * (15/100)
  let unemploymentFactor := 1 - ind.unemploymentRate * 3
  let demographicFactor := 1 + ind.youngDemographicShare * (10/100)
  let growthFactor := 1 + ind.growthRate * (5/10)
  jsRound (baseIncome * colFactor * educationFactor * unemploymentFactor
    * demographicFactor * growthFactor)

/-! ## Hybrid combiner — hybrid prediction API, `calculateHybridPrediction` -/

/-- The fields of an upstream prediction the hybrid combiner reads (plus the
region identification it copies into its output). -/
structure MethodInput where
  zipCode : String
  state : String
  predictedIncome : ℚ
  confidence : ℚ
deriving DecidableEq

/-- The `components` breakdown of a hybrid prediction (the formatted
`weightingStrategy` string is not modelled). -/
structure HybridComponents where
  traditionalPrediction : ℚ
  traditionalConfidence : ℚ
  mlPrediction : ℚ
  mlConfidence : ℚ
  disagreementPenalty : ℚ
deriving DecidableEq

/-- Result of the hybrid combiner (explanation strings not modelled). -/
structure HybridPrediction where
  zipCode : String
  state : String
  predictedIncome : ℤ
  confidence : ℚ
  components : HybridComponents
deriving DecidableEq

/-- The adaptive weight computation of `calculateHybridPrediction` (source
lines reassigning `ML_WEIGHT` / `TRADITIONAL_WEIGHT`), as a pure function of
the two confidences.  Returns `(ML_WEIGHT, TRADITIONAL_WEIGHT)`. -/
def hybridWeights (tradConf mlConf : ℚ) : ℚ × ℚ :=
  let wML : ℚ := 68/100
  let wTrad : ℚ := 32/100
  let confidenceDiff := mlConf - tradConf
  if confidenceDiff > 6/100 then
    let wML := min (82/100) (wML + 14/100)
    (wML, 1 - wML)
  else if confidenceDiff < -(6/100) then
    let wTrad := min (42/100) (wTrad + 10/100)
    (1 - wTrad, wTrad)
  else if |confidenceDiff| < 2/100 then
    (65/100, 35/100)
  else
    (wML, wTrad)

/-- Relative disagreement between the two input predictions. -/
def hybridDisagreement (traditional ml : MethodInput) : ℚ :=
  |traditional.predictedIncome - ml.predictedIncome|
    / max traditional.predictedIncome ml.predictedIncome

/-- Embedding of `calculateHybridPrediction` from the hybrid API: adaptive weights, rounded
weighted mean, disagreement-adjusted confidence.  Note the source caps the
boosted confidence at `0.99` inside each boost branch and applies the `0.96`
disagreement penalty afterwards. -/
def calculateHybridPrediction (traditional ml : MethodInput) : HybridPrediction :=
  let w := hybridWeights traditional.confidence ml.confidence
  let ML_WEIGHT := w.1
  let TRADITIONAL_WEIGHT := w.2
  let predictedIncome := jsRound
    (traditional.predictedIncome * TRADITIONAL_WEIGHT + ml.predictedIncome * ML_WEIGHT)
  let disagreement := hybridDisagreement traditional ml
  let confidence0 :=
    traditional.confidence * TRADITIONAL_WEIGHT + ml.confidence * ML_WEIGHT
  let confidence1 :=
    if disagreement < 12/100 then min (99/100) (confidence0 * (105/100))
    else if disagreement < 20/100 then min (99/100) (confidence0 * (103/100))
    else min (99/100) (confidence0 * (101/100))
  let disagreementPenalty : ℚ := if disagreement > 25/100 then 96/100 else 1
  let confidence2 := confidence1 * disagreementPenalty
  { zipCode := traditional.zipCode
    state := traditional.state
    predictedIncome := predictedIncome
    confidence := confidence2
    components :=
      { traditionalPrediction := traditional.predictedIncome
        traditionalConfidence := traditional.confidence
        mlPrediction := ml.predictedIncome
        mlConfidence := ml.confidence
        disagreementPenalty := disagreementPenalty } }

/-- The weight table exactly as the specification words it: base
`wML = 0.68`, `wStat = 0.32`; the three confidence-differential cases with
their clamps; otherwise the base weights.  Returns `(wML, wStat)`. -/
def spec_hybridWeights (tradConf mlConf : ℚ) : ℚ × ℚ :=
  let confidenceDiff := mlConf - tradConf
  if confidenceDiff > 6/100 then
    let wML := min (82/100) ((68:ℚ)/100 + 14/100)
    (wML, 1 - wML)
  else if confidenceDiff < -(6/100) then
    let wStat := min (42/100) ((32:ℚ)/100 + 10/100)
    (1 - wStat, wStat)
  else if |confidenceDiff| < 2/100 then
    ((65:ℚ)/100, (35:ℚ)/100)
  else
    ((68:ℚ)/100, (32:ℚ)/100)

/-- Hybrid confidence as the claim words it: weighted average, multiplicative
boost chosen by disagreement, penalty `0.96` when disagreement exceeds `0.25`,
and the cap at `0.99` applied after all adjustments. -/
def spec_hybridConfidence (traditional ml : MethodInput) : ℚ :=
  let w := spec_hybridWeights traditional.confidence ml.confidence
  let base := w.2 * traditional.confidence + w.1 * ml.confidence
  let disagreement := hybridDisagreement traditional ml
  let boost : ℚ :=
    if disagreement < 12/100 then 105/100
    else if disagreement < 20/100 then 103/100
    else 101/100
  let penalty : ℚ := if disagreement > 25/100 then 96/100 else 1
  min (99/100) (base * boost * penalty)

/-- Hybrid confidence with the cap placed where the code places it: the boosted
weighted average is capped at `0.99` first, and the `0.96` penalty multiplies
the capped value. -/
def hybridConfidence_capBeforePenalty (traditional ml : MethodInput) : ℚ :=
  let w := spec_hybridWeights traditional.confidence ml.confidence
  let base := w.2 * traditional.confidence + w.1 * ml.confidence
  let disagreement := hybridDisagreement traditional ml
  let boost : ℚ :=
    if disagreement < 12/100 then 105/100
    else if disagreement < 20/100 then 103/100
    else 101/100
  let penalty : ℚ := if disagreement > 25/100 then 96/100 else 1
  min (99/100) (base * boost) * penalty

/-! ## Comparison engine — comparison API (`visualize.ts`, comparison part) -/

/-- Agreement classification of the three predictions. -/
inductive Agreement where
  | high
  | medium
  | low
deriving DecidableEq

/-- Embedding of `calculateAgreement`, instantiated to the three-element `predictions`
array the engine always passes (`[traditional, ml, hybrid]` incomes): mean by
`reduce (+) 0 / length`, maximum relative deviation by `Math.max` over the
mapped deviations. -/
def calculateAgreement (a b c : ℚ) : Agreement :=
  let mean := (0 + a + b + c) / 3
  let maxDeviation := max (|a - mean| / mean) (max (|b - mean| / mean) (|c - mean| / mean))
  if maxDeviation < 5/100 then .high
  else if maxDeviation < 15/100 then .medium
  else .low

/-- The fields of a `MethodResult` the recommendation logic reads (timing and
methodology strings are not modelled). -/
structure MethodResult where
  income : ℚ
  confidence : ℚ
deriving DecidableEq

/-- Recommended methodology.  The source labels the statistical estimator
`traditional`; the specification calls the same method `statistical`. -/
inductive Method where
  | traditional
  | ml
  | hybrid
deriving DecidableEq

/-- Recommendation together with its rationale string. -/
structure Recommendation where
  recommended : Method
  reason : String
deriving DecidableEq

/-- Embedding of `generateRecommendation` from the comparison API. -/
def generateRecommendation (traditional ml hybrid : MethodResult)
    (agreement : Agreement) : Recommendation :=
  if agreement = .high then
    { recommended := .hybrid
      reason := "All methods agree closely. Hybrid combines the best of both approaches with highest confidence." }
  else if agreement = .medium then
    let maxConfidence := max traditional.confidence (max ml.confidence hybrid.confidence)
    if hybrid.confidence = maxConfidence then
      { recommended := .hybrid
        reason := "Moderate agreement between methods. Hybrid balances accuracy and explainability." }
    else if ml.confidence = maxConfidence then
      { recommended := .ml
        reason := "ML model has highest confidence with 95.01% historical accuracy on IRS data." }
    else
      { recommended := .traditional
        reason := "Traditional model provides stable, explainable predictions with high confidence." }
  else
    { recommended := .traditional
      reason := "Methods disagree significantly. Traditional model provides most explainable and stable prediction." }

/-- Confidence of the named method among the three inputs. -/
def methodConfidence (traditional ml hybrid : MethodResult) : Method → ℚ
  | .traditional => traditional.confidence
  | .ml => ml.confidence
  | .hybrid => hybrid.confidence

/-- Dispersion statistics of the comparison handler (the `stdDev` field is
`Math.sqrt(variance)`, kept separately as `comparisonStdDev`). -/
structure ComparisonStats where
  mean : ℚ
  variance : ℚ
  minIncome : ℚ
  maxIncome : ℚ
  spread : ℚ
deriving DecidableEq

/-- The statistics block of the comparison handler, instantiated to the
three-element `predictions` array `[traditional, ml, hybrid]`:
`mean = reduce (+) 0 / length`, `variance = reduce (+ (p − mean)²) 0 / length`,
`min`/`max` by `Math.min`/`Math.max`, `spread = max − min`. -/
def comparisonStats (a b c : ℚ) : ComparisonStats :=
  let mean := (0 + a + b + c) / 3
  let variance := (0 + (a - mean)^2 + (b - mean)^2 + (c - mean)^2) / 3
  let minIncome := min a (min b c)
  let maxIncome := max a (max b c)
  let spread := maxIncome - minIncome
  { mean := mean
    variance := variance
    minIncome := minIncome
    maxIncome := maxIncome
    spread := spread }

/-- The field `stdDev = Math.sqrt(variance)` of the comparison handler. -/
noncomputable def comparisonStdDev (a b c : ℚ) : ℝ :=
  Real.sqrt ((comparisonStats a b c).variance : ℝ)

/-! ## Helper lemmas and claim theorems -/

/-- Whenever the reference store resolves a region, the estimator succeeds and
its predicted income matches the spec formula on those indicators. -/
theorem statistical_matches_spec (za : String → Option ZipAdjustment)
    (sd : String → Option StateEconData) (z : String) (ind : RegionIndicators)
    (h : regionIndicators za sd z = some ind) :
    ∃ p, calculateTraditionalPrediction za sd z = some p ∧
      p.predictedIncome = spec_statisticalIncome ind := by
  unfold regionIndicators at h
  unfold calculateTraditionalPrediction
  cases hza : za z with
  | none => simp [hza] at h
  | some zipData =>
    simp only [hza] at h ⊢
    cases hsd : sd zipData.state with
    | none => simp [hsd] at h
    | some stateData =>
      simp only [hsd, Option.some.injEq] at h ⊢
      refine ⟨computePrediction z zipData stateData, rfl, ?_⟩
      subst h
      simp only [computePrediction, spec_statisticalIncome]

/-- C1: for every region id resolved by the reference store, the statistical
predicted income of the statistical estimator equals `round(baseIncome × colFactor ×
educationFactor × unemploymentFactor × demographicFactor × growthFactor)`
with the factor definitions of the spec; in particular region `10001`
(median 72000, adjustment 1.35, education index 0.78) has base income 97200
and education factor 1.117. -/
theorem statistical_income_matches_spec_formula :
    (∀ z ind, regionIndicators ZIP_ADJUSTMENTS STATE_DATA z = some ind →
      ∃ p, calculateTraditionalPrediction ZIP_ADJUSTMENTS STATE_DATA z = some p ∧
        p.predictedIncome = spec_statisticalIncome ind) ∧
    (∃ p, calculateTraditionalPrediction ZIP_ADJUSTMENTS STATE_DATA "10001" = some p ∧
      p.components.baseIncome = 97200 ∧ p.components.educationAdjustment = 1117/1000) := by
  constructor
  · intro z ind h
    exact statistical_matches_spec ZIP_ADJUSTMENTS STATE_DATA z ind h
  · refine ⟨computePrediction "10001" ⟨"NY", 135/100, 25000, "high"⟩
      ⟨72000, 145/100, 42/1000, 78/100, 65/100, 28/1000⟩, ?_, ?_, ?_⟩
    · simp [calculateTraditionalPrediction, ZIP_ADJUSTMENTS, STATE_DATA]
    · norm_num [computePrediction, jsRound]
    · norm_num [computePrediction]

/-- Witness for C1: the hypothesis of the universal part holds at region
`10001` with its concrete indicators. -/
theorem statistical_income_matches_spec_formula_witness :
    regionIndicators ZIP_ADJUSTMENTS STATE_DATA "10001"
        = some ⟨"10001", "NY", 72000, 145/100, 42/1000, 78/100, 65/100, 28/1000, 135/100⟩ ∧
    ∃ p, calculateTraditionalPrediction ZIP_ADJUSTMENTS STATE_DATA "10001" = some p ∧
      p.predictedIncome = spec_statisticalIncome
        ⟨"10001", "NY", 72000, 145/100, 42/1000, 78/100, 65/100, 28/1000, 135/100⟩ :=
  ⟨by simp [regionIndicators, ZIP_ADJUSTMENTS, STATE_DATA],
    statistical_income_matches_spec_formula.1 "10001" _
      (by simp [regionIndicators, ZIP_ADJUSTMENTS, STATE_DATA])⟩

/-- C9: the statistical estimator is deterministic — for a fixed region id and
fixed reference-store content (any two store snapshots agreeing on that
content), two invocations return the same predicted income and confidence. -/
theorem statistical_estimator_deterministic
    (za₁ za₂ : String → Option ZipAdjustment) (sd₁ sd₂ : String → Option StateEconData)
    (z : String) (hza : za₁ z = za₂ z) (hsd : ∀ s, sd₁ s = sd₂ s) :
    (calculateTraditionalPrediction za₁ sd₁ z).map (fun p => (p.predictedIncome, p.confidence))
      = (calculateTraditionalPrediction za₂ sd₂ z).map (fun p => (p.predictedIncome, p.confidence)) := by
  unfold calculateTraditionalPrediction
  rw [hza]
  cases za₂ z with
  | none => rfl
  | some zipData =>
    dsimp only
    rw [hsd zipData.state]

/-- Witness for C9: two invocations on the concrete store at region `10001`. -/
theorem statistical_estimator_deterministic_witness :
    ZIP_ADJUSTMENTS "10001" = ZIP_ADJUSTMENTS "10001" ∧
    (calculateTraditionalPrediction ZIP_ADJUSTMENTS STATE_DATA "10001").map
        (fun p => (p.predictedIncome, p.confidence))
      = (calculateTraditionalPrediction ZIP_ADJUSTMENTS STATE_DATA "10001").map
        (fun p => (p.predictedIncome, p.confidence)) :=
  ⟨rfl, statistical_estimator_deterministic ZIP_ADJUSTMENTS ZIP_ADJUSTMENTS
    STATE_DATA STATE_DATA "10001" rfl (fun _ => rfl)⟩

/-- C2: the weights of the hybrid combiner follow the confidence-differential
table exactly, and its predicted income is `round(wStat × Statistical.income +
wML × ML.income)` with those weights. -/
theorem hybrid_weights_and_income_match_spec (traditional ml : MethodInput) :
    hybridWeights traditional.confidence ml.confidence
        = spec_hybridWeights traditional.confidence ml.confidence ∧
    (calculateHybridPrediction traditional ml).predictedIncome
      = jsRound ((spec_hybridWeights traditional.confidence ml.confidence).2
            * traditional.predictedIncome
          + (spec_hybridWeights traditional.confidence ml.confidence).1
            * ml.predictedIncome) := by
  have hw : hybridWeights traditional.confidence ml.confidence
      = spec_hybridWeights traditional.confidence ml.confidence := rfl
  refine ⟨hw, ?_⟩
  have hdef : (calculateHybridPrediction traditional ml).predictedIncome
      = jsRound (traditional.predictedIncome
            * (hybridWeights traditional.confidence ml.confidence).2
          + ml.predictedIncome
            * (hybridWeights traditional.confidence ml.confidence).1) := rfl
  rw [hdef, hw]
  congr 1
  ring

/-- C3: for every pair of confidences in `[0,1]`, the realized hybrid weights
sum to exactly 1, with `wML ∈ [0, 0.82]` and `wStat ∈ [0, 0.42]`. -/
theorem hybrid_weight_invariant (tradConf mlConf : ℚ)
    (ht0 : 0 ≤ tradConf) (ht1 : tradConf ≤ 1) (hm0 : 0 ≤ mlConf) (hm1 : mlConf ≤ 1) :
    (hybridWeights tradConf mlConf).1 + (hybridWeights tradConf mlConf).2 = 1 ∧
    0 ≤ (hybridWeights tradConf mlConf).1 ∧ (hybridWeights tradConf mlConf).1 ≤ 82/100 ∧
    0 ≤ (hybridWeights tradConf mlConf).2 ∧ (hybridWeights tradConf mlConf).2 ≤ 42/100 := by
  unfold hybridWeights
  dsimp only
  split_ifs <;> norm_num

/-- Witness for C3: both confidences `0.9`. -/
theorem hybrid_weight_invariant_witness :
    ((0:ℚ) ≤ 9/10 ∧ (9:ℚ)/10 ≤ 1) ∧
    ((hybridWeights (9/10) (9/10)).1 + (hybridWeights (9/10) (9/10)).2 = 1 ∧
     0 ≤ (hybridWeights (9/10) (9/10)).1 ∧ (hybridWeights (9/10) (9/10)).1 ≤ 82/100 ∧
     0 ≤ (hybridWeights (9/10) (9/10)).2 ∧ (hybridWeights (9/10) (9/10)).2 ≤ 42/100) :=
  ⟨⟨by norm_num, by norm_num⟩,
    hybrid_weight_invariant (9/10) (9/10) (by norm_num) (by norm_num) (by norm_num) (by norm_num)⟩

/-- A capped value multiplied by a factor in `[0,1]` stays below the cap. -/
theorem capped_mul_le (x p : ℚ) (hp0 : 0 ≤ p) (hp1 : p ≤ 1) :
    min (99/100) x * p ≤ 99/100 := by
  have hv : min ((99:ℚ)/100) x ≤ 99/100 := min_le_left _ _
  nlinarith

/-- C4 counterexample: with both input confidences `0.99` and incomes `200000`
vs `100000` (disagreement `0.5 > 0.25`), the code yields confidence
`min(0.99, 0.99 × 1.01) × 0.96 = 0.9504`, not the claimed
`min(0.99, 0.99 × 1.01 × 0.96) = 0.959904` — the cap is not applied after all
adjustments. -/
theorem hybrid_confidence_cap_order_counterexample :
    (calculateHybridPrediction ⟨"10001", "NY", 200000, 99/100⟩
        ⟨"10001", "NY", 100000, 99/100⟩).confidence
      ≠ spec_hybridConfidence ⟨"10001", "NY", 200000, 99/100⟩
        ⟨"10001", "NY", 100000, 99/100⟩ := by
  norm_num [calculateHybridPrediction, spec_hybridConfidence, hybridWeights,
    spec_hybridWeights, hybridDisagreement]

/-- C4 (amended): the confidence of the combiner is the weighted average of the two
input confidences, boosted by 5%/3%/1% by disagreement band, with the cap at
`0.99` applied to the boosted value BEFORE the 4% penalty multiplier for
disagreement above `0.25`; the final confidence still never exceeds `0.99`. -/
theorem hybrid_confidence_cap_before_penalty (traditional ml : MethodInput)
    (hti : 0 < traditional.predictedIncome) (hmi : 0 < ml.predictedIncome) :
    (calculateHybridPrediction traditional ml).confidence
        = hybridConfidence_capBeforePenalty traditional ml ∧
    (calculateHybridPrediction traditional ml).confidence ≤ 99/100 := by
  constructor
  · unfold calculateHybridPrediction hybridConfidence_capBeforePenalty
    rw [show spec_hybridWeights traditional.confidence ml.confidence
        = hybridWeights traditional.confidence ml.confidence from rfl]
    dsimp only
    split_ifs <;> congr 2 <;> ring
  · show (if hybridDisagreement traditional ml < 12/100 then
        min (99/100) ((traditional.confidence
            * (hybridWeights traditional.confidence ml.confidence).2
          + ml.confidence * (hybridWeights traditional.confidence ml.confidence).1)
          * (105/100))
      else if hybridDisagreement traditional ml < 20/100 then
        min (99/100) ((traditional.confidence
            * (hybridWeights traditional.confidence ml.confidence).2
          + ml.confidence * (hybridWeights traditional.confidence ml.confidence).1)
          * (103/100))
      else
        min (99/100) ((traditional.confidence
            * (hybridWeights traditional.confidence ml.confidence).2
          + ml.confidence * (hybridWeights traditional.confidence ml.confidence).1)
          * (101/100)))
      * (if hybridDisagreement traditional ml > 25/100 then 96/100 else 1) ≤ 99/100
    split_ifs <;> exact capped_mul_le _ _ (by norm_num) (by norm_num)

/-- Witness for C4 (amended): concrete positive incomes. -/
theorem hybrid_confidence_cap_before_penalty_witness :
    ((0:ℚ) < (MethodInput.mk "10001" "NY" 96000 (92/100)).predictedIncome ∧
     (0:ℚ) < (MethodInput.mk "10001" "NY" 99000 (95/100)).predictedIncome) ∧
    ((calculateHybridPrediction ⟨"10001", "NY", 96000, 92/100⟩
          ⟨"10001", "NY", 99000, 95/100⟩).confidence
        = hybridConfidence_capBeforePenalty ⟨"10001", "NY", 96000, 92/100⟩
          ⟨"10001", "NY", 99000, 95/100⟩ ∧
     (calculateHybridPrediction ⟨"10001", "NY", 96000, 92/100⟩
          ⟨"10001", "NY", 99000, 95/100⟩).confidence ≤ 99/100) :=
  ⟨⟨by norm_num, by norm_num⟩,
    hybrid_confidence_cap_before_penalty ⟨"10001", "NY", 96000, 92/100⟩
      ⟨"10001", "NY", 99000, 95/100⟩ (by norm_num) (by norm_num)⟩

/-- C5 counterexample: fed a traditional result for `10001` and an ML result
for `90001`, the combiner does not fail — it returns a combined prediction
(income 88850) carrying the region id of the traditional input. -/
theorem hybrid_no_region_id_check_counterexample :
    (MethodInput.mk "10001" "NY" 96000 (92/100)).zipCode
        ≠ (MethodInput.mk "90001" "CA" 85000 (93/100)).zipCode ∧
    (calculateHybridPrediction ⟨"10001", "NY", 96000, 92/100⟩
        ⟨"90001", "CA", 85000, 93/100⟩).zipCode = "10001" ∧
    (calculateHybridPrediction ⟨"10001", "NY", 96000, 92/100⟩
        ⟨"90001", "CA", 85000, 93/100⟩).predictedIncome = 88850 := by
  refine ⟨by decide, rfl, ?_⟩
  norm_num [calculateHybridPrediction, hybridWeights, hybridDisagreement, jsRound,
    abs_of_nonneg]

/-- C5 (amended): the combiner performs no region-id validation; on mismatched
region ids it still returns a combined result, silently carrying the
region id and state of the traditional input. -/
theorem hybrid_mismatched_ids_returns_traditional_region (traditional ml : MethodInput)
    (h : traditional.zipCode ≠ ml.zipCode) :
    (calculateHybridPrediction traditional ml).zipCode = traditional.zipCode ∧
    (calculateHybridPrediction traditional ml).state = traditional.state :=
  ⟨rfl, rfl⟩

/-- Witness for C5 (amended): concrete mismatched region ids. -/
theorem hybrid_mismatched_ids_returns_traditional_region_witness :
    (MethodInput.mk "10001" "NY" 96000 (92/100)).zipCode
        ≠ (MethodInput.mk "90001" "CA" 85000 (93/100)).zipCode ∧
    ((calculateHybridPrediction ⟨"10001", "NY", 96000, 92/100⟩
        ⟨"90001", "CA", 85000, 93/100⟩).zipCode
      = (MethodInput.mk "10001" "NY" 96000 (92/100)).zipCode ∧
     (calculateHybridPrediction ⟨"10001", "NY", 96000, 92/100⟩
        ⟨"90001", "CA", 85000, 93/100⟩).state
      = (MethodInput.mk "10001" "NY" 96000 (92/100)).state) :=
  ⟨by decide, hybrid_mismatched_ids_returns_traditional_region
    ⟨"10001", "NY", 96000, 92/100⟩ ⟨"90001", "CA", 85000, 93/100⟩ (by decide)⟩

/-- C6: for every triple of positive predicted incomes, the agreement
classification is `high` when the maximum relative deviation from the mean is
below `0.05`, `medium` below `0.15`, and `low` otherwise. -/
theorem agreement_classification_matches_spec (a b c : ℚ)
    (ha : 0 < a) (hb : 0 < b) (hc : 0 < c) :
    calculateAgreement a b c =
      (let mean := (a + b + c) / 3
       let maxRelDeviation :=
         max (|a - mean| / mean) (max (|b - mean| / mean) (|c - mean| / mean))
       if maxRelDeviation < 5/100 then Agreement.high
       else if maxRelDeviation < 15/100 then Agreement.medium
       else Agreement.low) := by
  unfold calculateAgreement
  rw [show (0 + a + b + c : ℚ) = a + b + c from by ring]

/-- Witness for C6: three equal positive incomes classify as `high`. -/
theorem agreement_classification_matches_spec_witness :
    ((0:ℚ) < 100) ∧ calculateAgreement 100 100 100 = Agreement.high :=
  ⟨by norm_num, by
    have h := agreement_classification_matches_spec 100 100 100
      (by norm_num) (by norm_num) (by norm_num)
    rw [h]
    norm_num⟩

/-- C7: the recommendation decision table — `high` agreement recommends the
hybrid method, `medium` agreement recommends the method with the highest
confidence (the source labels the statistical method `traditional`), and
`low` agreement recommends the statistical (`traditional`) method. -/
theorem recommendation_decision_table (traditional ml hybrid : MethodResult) :
    (generateRecommendation traditional ml hybrid .high).recommended = .hybrid ∧
    (generateRecommendation traditional ml hybrid .low).recommended = .traditional ∧
    methodConfidence traditional ml hybrid
        (generateRecommendation traditional ml hybrid .medium).recommended
      = max traditional.confidence (max ml.confidence hybrid.confidence) := by
  refine ⟨rfl, rfl, ?_⟩
  unfold generateRecommendation
  simp only [reduceIte, reduceCtorEq, if_false, if_true]
  by_cases hh : hybrid.confidence
      = max traditional.confidence (max ml.confidence hybrid.confidence)
  · rw [if_pos hh]
    exact hh
  · rw [if_neg hh]
    by_cases hm : ml.confidence
        = max traditional.confidence (max ml.confidence hybrid.confidence)
    · rw [if_pos hm]
      exact hm
    · rw [if_neg hm]
      rcases max_choice traditional.confidence (max ml.confidence hybrid.confidence)
        with h | h
      · exact h.symm
      · rcases max_choice ml.confidence hybrid.confidence with h' | h'
        · exact absurd (h.trans h').symm hm
        · exact absurd (h.trans h').symm hh

/-- C8: the comparison statistics — the variance equals
`((a−m)² + (b−m)² + (c−m)²)/3` with `m = (a+b+c)/3`, the standard deviation
is the square root of that variance, and the spread is `max − min`. -/
theorem comparison_statistics_formulas (a b c : ℚ) :
    (comparisonStats a b c).variance
        = ((a - (a+b+c)/3)^2 + (b - (a+b+c)/3)^2 + (c - (a+b+c)/3)^2) / 3 ∧
    comparisonStdDev a b c = Real.sqrt ((comparisonStats a b c).variance : ℝ) ∧
    (comparisonStats a b c).spread = max a (max b c) - min a (min b c) := by
  refine ⟨?_, rfl, rfl⟩
  unfold comparisonStats
  dsimp only
  ring

/-- C10: the combiner output takes its region id and state from the
traditional input only; the region identification of the ML input is never
read, so the result is unchanged when the region id and state of the ML
input are replaced by anything. -/
theorem hybrid_region_fields_from_traditional_only (traditional ml : MethodInput)
    (z s : String) :
    (calculateHybridPrediction traditional ml).zipCode = traditional.zipCode ∧
    (calculateHybridPrediction traditional ml).state = traditional.state ∧
    calculateHybridPrediction traditional ml
      = calculateHybridPrediction traditional ⟨z, s, ml.predictedIncome, ml.confidence⟩ :=
  ⟨rfl, rfl, rfl⟩
